import Mathlib

/-!
Verification of the PyInform Cython wrapper (`src/pyinform/pyinform.pyx`).

The wrapper's own logic (argument checks, error raising, base inference,
dimension dispatch) is embedded directly from the `.pyx` source.  The external
C library functions (`inform_dist_*`, `inform_active_info`, ...) are declared
but not defined in the repository; where their behaviour matters it is
modelled from the specification, and where it does not (the floating-point
measure computations) it is left as an opaque parameter.
-/

namespace PyInform

/-- The distinct error conditions raised by the wrapper.  In the Python source
they are `ValueError`/`IndexError`/`TypeError` values distinguished by their
messages; here they are distinguished by constructor.  `illDefinedEmpty` is
the `ValueError` raised for 0-dimensional input ("... is ill-defined on empty
arrays") and `dimUnsupported` the one for arrays of dimension greater than 2. -/
inductive Err where
  | constructionError
  | indexOutOfRange
  | invalidDistribution
  | invalidHistoryLength
  | seriesTooShort
  | shapeMismatch
  | domainError
  | dimUnsupported
  | illDefinedEmpty
  | typeError
  deriving DecidableEq, Repr

/-- The state of an `inform_dist`: a histogram, i.e. one non-negative count per
event of the support.  The C struct is opaque in the repository, so the state
is modelled from the spec ("a mapping from event index `[0,n)` to a
non-negative integer count"). -/
structure Dist where
  hist : List Nat
  deriving DecidableEq, Repr

/-- Modelled from the spec: `construct(n)` yields an invalid distribution of
support `n`, i.e. `n` events all with count zero. -/
def inform_dist_alloc (n : Nat) : Dist := ⟨List.replicate n 0⟩

/-- Modelled from the spec: the size of the support. -/
def inform_dist_size (d : Dist) : Nat := d.hist.length

/-- Modelled from the spec: the total number of observations (`counts()`). -/
def inform_dist_counts (d : Dist) : Nat := d.hist.sum

/-- Modelled from the spec: `valid() ⇔ n > 0 ∧ total > 0`. -/
def inform_dist_is_valid (d : Dist) : Bool :=
  decide (0 < d.hist.length) && decide (0 < d.hist.sum)

/-- Modelled from the spec: the number of observations made of `event`. -/
def inform_dist_get (d : Dist) (event : Nat) : Nat := d.hist.getD event 0

/-- Modelled from the spec: set the count of `event` to `value`. -/
def inform_dist_set (d : Dist) (event value : Nat) : Dist :=
  ⟨d.hist.set event value⟩

/-- Modelled from the spec: `tick(e)` increments the count of `e` and returns
the new count of `e` (alongside the updated distribution). -/
def inform_dist_tick (d : Dist) (event : Nat) : Dist × Nat :=
  (⟨d.hist.set event (d.hist.getD event 0 + 1)⟩, d.hist.getD event 0 + 1)

/-- Modelled from the spec: `probability(e) = count(e)/total`, as an exact
rational in place of the C `double`. -/
def inform_dist_prob (d : Dist) (event : Nat) : ℚ :=
  (inform_dist_get d event : ℚ) / (inform_dist_counts d : ℚ)

/-- Modelled from the spec: `resize` preserves counts at indices
`< min(n, n2)` and zero-fills newly added indices. -/
def inform_dist_realloc (d : Dist) (n : Nat) : Dist :=
  ⟨d.hist.take n ++ List.replicate (n - d.hist.length) 0⟩

/-- A Python value passed to `Dist.__cinit__`: the constructor is dynamically
typed, so the argument may be an integer or a list. -/
inductive PyVal where
  | int (n : Int)
  | list (xs : List Int)
  deriving DecidableEq, Repr

/-- `Dist.__cinit__(self, n)` (pyinform.pyx lines 34-42): `if n <= 0: raise
ValueError(...)`, then `inform_dist_alloc(n)`.  The guard assumes an integer
argument: applied to a Python list the construction fails with a `TypeError`
(under Python 3 the comparison `list <= int` itself raises; under Python 2 the
comparison is `False` and the conversion of the list to `size_t` for
`inform_dist_alloc` raises).  The `MemoryError` path for a failed C allocation
is not modelled. -/
def Dist.cinit : PyVal → Except Err Dist
  | .int n => if n ≤ 0 then .error .constructionError else .ok (inform_dist_alloc n.toNat)
  | .list _ => .error .typeError

/-- `Dist.__len__` (pyinform.pyx line 51). -/
def Dist.len (d : Dist) : Nat := inform_dist_size d

/-- `Dist.resize` (pyinform.pyx lines 57-65): `if n <= 0: raise ValueError`,
then `inform_dist_realloc`.  The `MemoryError` path is not modelled. -/
def Dist.resize (d : Dist) (n : Int) : Except Err Dist :=
  if n ≤ 0 then .error .constructionError else .ok (inform_dist_realloc d n.toNat)

/-- `Dist.counts` (pyinform.pyx lines 75-79). -/
def Dist.counts (d : Dist) : Nat := inform_dist_counts d

/-- `Dist.valid` (pyinform.pyx lines 81-86). -/
def Dist.valid (d : Dist) : Bool := inform_dist_is_valid d

/-- `Dist.__getitem__` (pyinform.pyx lines 88-94): `if event >= len(self):
raise IndexError()`, then `inform_dist_get`. -/
def Dist.getitem (d : Dist) (event : Nat) : Except Err Nat :=
  if d.len ≤ event then .error .indexOutOfRange else .ok (inform_dist_get d event)

/-- `Dist.__setitem__` (pyinform.pyx lines 96-102). -/
def Dist.setitem (d : Dist) (event value : Nat) : Except Err Dist :=
  if d.len ≤ event then .error .indexOutOfRange else .ok (inform_dist_set d event value)

/-- `Dist.tick` (pyinform.pyx lines 104-111): `if event >= len(self): raise
IndexError()`, then return `inform_dist_tick(...)`; the updated distribution
is returned alongside the count since state is explicit here. -/
def Dist.tick (d : Dist) (event : Nat) : Except Err (Dist × Nat) :=
  if d.len ≤ event then .error .indexOutOfRange else .ok (inform_dist_tick d event)

/-- `Dist.probability` (pyinform.pyx lines 113-121): `if not self.valid():
raise ValueError("invalid distribution")`, then `if event >= len(self): raise
IndexError()`, then `inform_dist_prob`. -/
def Dist.probability (d : Dist) (event : Nat) : Except Err ℚ :=
  if !d.valid then .error .invalidDistribution
  else if d.len ≤ event then .error .indexOutOfRange
  else .ok (inform_dist_prob d event)

/-- A C `double` as far as the wrapper inspects it: the wrapper only ever asks
`math.isnan`, so the model distinguishes NaN, the two infinities, and finite
values (carried as exact rationals). -/
inductive Double where
  | finite (q : ℚ)
  | inf
  | ninf
  | nan
  deriving DecidableEq, Repr

/-- `math.isnan`. -/
def isnan : Double → Bool
  | .nan => true
  | _ => false

/-- Whether a double is finite (true exactly when it is neither NaN nor an
infinity). -/
def Double.isFinite : Double → Bool
  | .finite _ => true
  | _ => false

/-- Python's `max` over a list of naturals (only applied to non-empty lists in
the source; `foldr max 0` agrees with it there). -/
def pymax (xs : List Nat) : Nat := xs.foldr max 0

/-- The argument tuple of a call to `inform_active_info` or
`inform_entropy_rate`: the flattened series, the number of initial conditions
`n`, the length `m` of each, the base `b` and the history length `k`. -/
structure AICall where
  series : List Nat
  n : Nat
  m : Nat
  b : Nat
  k : Nat
  deriving DecidableEq, Repr

/-- The argument tuple of a call to `inform_transfer_entropy`. -/
structure TECall where
  seriesy : List Nat
  seriesx : List Nat
  n : Nat
  m : Nat
  b : Nat
  k : Nat
  deriving DecidableEq, Repr

/-- A NumPy array after `numpy.asarray(..., dtype=numpy.uint64)`: a shape and
the row-major data.  `ndim` is the length of the shape. -/
structure NDArr where
  shape : List Nat
  data : List Nat
  deriving DecidableEq, Repr

/-- The number of dimensions of the array. -/
def NDArr.ndim (a : NDArr) : Nat := a.shape.length

/-- A 2-dimensional array: shape `(rows, cols)` with row-major data. -/
structure Arr2 where
  rows : Nat
  cols : Nat
  data : List Nat
  deriving DecidableEq, Repr

/-- The checks of `activeinfo1d` (pyinform.pyx lines 141-167) and the argument
tuple it passes to the C call: first `if len(arr) < k+1 or len(arr) == 0`
raises SeriesTooShort, then `if k == 0` raises InvalidHistoryLength, then
`if b < 2: b = max(2, max(arr)+1)`, then `inform_active_info(&ys[0], 1,
len(arr), b, k)` is called. -/
def activeinfo1dCall (arr : List Nat) (k b : Nat) : Except Err AICall :=
  if arr.length < k + 1 ∨ arr.length = 0 then .error .seriesTooShort
  else if k = 0 then .error .invalidHistoryLength
  else
    let b2 := if b < 2 then max 2 (pymax arr + 1) else b
    .ok ⟨arr, 1, arr.length, b2, k⟩

/-- `activeinfo1d` on the non-local path, with the C computation
`inform_active_info` as an opaque parameter `cfun`: after the checks of
`activeinfo1dCall`, `if isnan(ai): raise ValueError(... NaN)` else return
`ai`. -/
def activeinfo1d (arr : List Nat) (k b : Nat) (cfun : AICall → Double) :
    Except Err Double :=
  match activeinfo1dCall arr k b with
  | .error e => .error e
  | .ok c => if isnan (cfun c) then .error .domainError else .ok (cfun c)

/-- The checks of `activeinfo2d` (pyinform.pyx lines 169-196) and the argument
tuple it passes to the C call: `if shape[1] < k+1 or shape[0] == 0` raises
SeriesTooShort, then `if k == 0` raises InvalidHistoryLength, then
`if b < 2: b = max(2, numpy.amax(arr)+1)` over the whole ensemble, then
`inform_active_info(&ys[0], shape[0], shape[1], b, k)`. -/
def activeinfo2dCall (a : Arr2) (k b : Nat) : Except Err AICall :=
  if a.cols < k + 1 ∨ a.rows = 0 then .error .seriesTooShort
  else if k = 0 then .error .invalidHistoryLength
  else
    let b2 := if b < 2 then max 2 (pymax a.data + 1) else b
    .ok ⟨a.data, a.rows, a.cols, b2, k⟩

/-- `activeinfo2d` on the non-local path, with the C computation opaque. -/
def activeinfo2d (a : Arr2) (k b : Nat) (cfun : AICall → Double) :
    Except Err Double :=
  match activeinfo2dCall a k b with
  | .error e => .error e
  | .ok c => if isnan (cfun c) then .error .domainError else .ok (cfun c)

/-- `activeinfo` (pyinform.pyx lines 198-207): dispatch on `array.ndim`;
0-dimensional input raises ValueError ("active information is ill-defined on
empty arrays"), dimension greater than 2 raises ValueError ("arrays of
dimension greater than 2 are not yet supported"). -/
def activeinfo (xs : NDArr) (k b : Nat) (cfun : AICall → Double) :
    Except Err Double :=
  match xs.shape with
  | [] => .error .illDefinedEmpty
  | [_] => activeinfo1d xs.data k b cfun
  | [r, c] => activeinfo2d ⟨r, c, xs.data⟩ k b cfun
  | _ => .error .dimUnsupported

/-- The checks of `entropyrate1d` (pyinform.pyx lines 288-314) and the
argument tuple of the C call; the checks are identical in text and order to
`activeinfo1d`'s. -/
def entropyrate1dCall (arr : List Nat) (k b : Nat) : Except Err AICall :=
  if arr.length < k + 1 ∨ arr.length = 0 then .error .seriesTooShort
  else if k = 0 then .error .invalidHistoryLength
  else
    let b2 := if b < 2 then max 2 (pymax arr + 1) else b
    .ok ⟨arr, 1, arr.length, b2, k⟩

/-- `entropyrate1d` on the non-local path, with the C computation opaque. -/
def entropyrate1d (arr : List Nat) (k b : Nat) (cfun : AICall → Double) :
    Except Err Double :=
  match entropyrate1dCall arr k b with
  | .error e => .error e
  | .ok c => if isnan (cfun c) then .error .domainError else .ok (cfun c)

/-- The checks of `entropyrate2d` (pyinform.pyx lines 316-343) and the
argument tuple of the C call. -/
def entropyrate2dCall (a : Arr2) (k b : Nat) : Except Err AICall :=
  if a.cols < k + 1 ∨ a.rows = 0 then .error .seriesTooShort
  else if k = 0 then .error .invalidHistoryLength
  else
    let b2 := if b < 2 then max 2 (pymax a.data + 1) else b
    .ok ⟨a.data, a.rows, a.cols, b2, k⟩

/-- `entropyrate2d` on the non-local path, with the C computation opaque. -/
def entropyrate2d (a : Arr2) (k b : Nat) (cfun : AICall → Double) :
    Except Err Double :=
  match entropyrate2dCall a k b with
  | .error e => .error e
  | .ok c => if isnan (cfun c) then .error .domainError else .ok (cfun c)

/-- `entropyrate` (pyinform.pyx lines 345-354): same dispatch as
`activeinfo`; 0-dimensional input raises ValueError ("entropy rate is
ill-defined on empty arrays"). -/
def entropyrate (xs : NDArr) (k b : Nat) (cfun : AICall → Double) :
    Except Err Double :=
  match xs.shape with
  | [] => .error .illDefinedEmpty
  | [_] => entropyrate1d xs.data k b cfun
  | [r, c] => entropyrate2d ⟨r, c, xs.data⟩ k b cfun
  | _ => .error .dimUnsupported

/-- The checks of `transferentropy1d` (pyinform.pyx lines 213-240) and the
argument tuple of the C call: `if len(ys) < k+1 or len(ys) == 0` raises
SeriesTooShort, `if k == 0` raises InvalidHistoryLength, then
`if b < 2: b = max(2, max(xs)+1, max(ys)+1)` (Python's variadic `max`
associates to the left), then
`inform_transfer_entropy(&ysarr[0], &xsarr[0], 1, len(ys), b, k)`. -/
def transferentropy1dCall (ys xs : List Nat) (k b : Nat) : Except Err TECall :=
  if ys.length < k + 1 ∨ ys.length = 0 then .error .seriesTooShort
  else if k = 0 then .error .invalidHistoryLength
  else
    let b2 := if b < 2 then max (max 2 (pymax xs + 1)) (pymax ys + 1) else b
    .ok ⟨ys, xs, 1, ys.length, b2, k⟩

/-- `transferentropy1d` on the non-local path, with the C computation
opaque. -/
def transferentropy1d (ys xs : List Nat) (k b : Nat) (cfun : TECall → Double) :
    Except Err Double :=
  match transferentropy1dCall ys xs k b with
  | .error e => .error e
  | .ok c => if isnan (cfun c) then .error .domainError else .ok (cfun c)

/-- The checks of `transferentropy2d` (pyinform.pyx lines 242-270) and the
argument tuple of the C call: the shape checked is `ys.shape`, and the base
inference is `max(2, numpy.amax(xs)+1, numpy.amax(ys)+1)` over both whole
ensembles. -/
def transferentropy2dCall (ys xs : Arr2) (k b : Nat) : Except Err TECall :=
  if ys.cols < k + 1 ∨ ys.rows = 0 then .error .seriesTooShort
  else if k = 0 then .error .invalidHistoryLength
  else
    let b2 := if b < 2 then max (max 2 (pymax xs.data + 1)) (pymax ys.data + 1) else b
    .ok ⟨ys.data, xs.data, ys.rows, ys.cols, b2, k⟩

/-- `transferentropy2d` on the non-local path, with the C computation
opaque. -/
def transferentropy2d (ys xs : Arr2) (k b : Nat) (cfun : TECall → Double) :
    Except Err Double :=
  match transferentropy2dCall ys xs k b with
  | .error e => .error e
  | .ok c => if isnan (cfun c) then .error .domainError else .ok (cfun c)

/-- `transferentropy` (pyinform.pyx lines 272-282): first `if ysarr.shape !=
xsarr.shape` raises ValueError ("the x and y time series must have the same
shape"), then dispatch on `ysarr.ndim`; anything other than 1 or 2 dimensions
(including 0) falls to the final `else` and raises ValueError ("arrays of
dimension greater than 2 are not yet supported"). -/
def transferentropy (ys xs : NDArr) (k b : Nat) (cfun : TECall → Double) :
    Except Err Double :=
  if ys.shape ≠ xs.shape then .error .shapeMismatch
  else match ys.shape with
  | [_] => transferentropy1d ys.data xs.data k b cfun
  | [r, c] => transferentropy2d ⟨r, c, ys.data⟩ ⟨r, c, xs.data⟩ k b cfun
  | _ => .error .dimUnsupported

/-! ### Helper lemmas about list histograms -/

lemma sum_set_getD_succ (l : List Nat) (e : Nat) (h : e < l.length) :
    (l.set e (l.getD e 0 + 1)).sum = l.sum + 1 := by
  induction l generalizing e with
  | nil => simp at h
  | cons a t ih =>
    cases e with
    | zero => simp [List.getD]; omega
    | succ e2 =>
      simp only [List.set, List.getD_cons_succ, List.sum_cons]
      rw [ih e2 (by simpa using h)]
      omega

lemma getD_set_self (l : List Nat) (e v : Nat) (h : e < l.length) :
    (l.set e v).getD e 0 = v := by
  induction l generalizing e with
  | nil => simp at h
  | cons a t ih =>
    cases e with
    | zero => simp
    | succ e2 =>
      simp only [List.set, List.getD_cons_succ]
      exact ih e2 (by simpa using h)

lemma getD_take (l : List Nat) (n i : Nat) (h : i < n) :
    (l.take n).getD i 0 = l.getD i 0 := by
  induction l generalizing n i with
  | nil => simp
  | cons a t ih =>
    cases n with
    | zero => omega
    | succ n2 =>
      cases i with
      | zero => simp
      | succ i2 =>
        simp only [List.take, List.getD_cons_succ]
        exact ih n2 i2 (by omega)

lemma getD_replicate_zero (m j : Nat) :
    (List.replicate m (0 : Nat)).getD j 0 = 0 := by
  induction m generalizing j with
  | zero => simp
  | succ m2 ih =>
    cases j with
    | zero => simp [List.replicate]
    | succ j2 => simp [List.replicate, ih j2]

/-! ### Claims -/

/-- C1: the code contradicts its own documentation here.  `docs/source/dist.rst`
documents `Dist([3,0,1,2])` as a distribution pre-seeded with those counts
(support 4, `probability(0) == 0.5`, `probability(2) == 1/6`,
`probability(3) == 1/3`), but `Dist.__cinit__` only accepts an integer support
size: passing the list raises a `TypeError`.  The first conjunct evaluates the
constructor at the failing input; the remaining conjuncts show that a
distribution actually holding the counts `[3,0,1,2]` has exactly the
documented support and probabilities, so the claim reflects the intent and the
constructor is the slip. -/
theorem C1_from_counts_raises :
    Dist.cinit (.list [3, 0, 1, 2]) = .error .typeError ∧
    Dist.len ⟨[3, 0, 1, 2]⟩ = 4 ∧
    Dist.probability ⟨[3, 0, 1, 2]⟩ 0 = .ok (1 / 2) ∧
    Dist.probability ⟨[3, 0, 1, 2]⟩ 2 = .ok (1 / 6) ∧
    Dist.probability ⟨[3, 0, 1, 2]⟩ 3 = .ok (1 / 3) := by
  refine ⟨rfl, rfl, ?_, ?_, ?_⟩ <;>
    simp [Dist.probability, Dist.valid, Dist.len, inform_dist_is_valid,
      inform_dist_prob, inform_dist_get, inform_dist_counts, inform_dist_size] <;>
    norm_num

/-- C2: `probability(e)` raises InvalidDistribution whenever the distribution
is not valid (it never returns a number there), raises IndexOutOfRange when
the distribution is valid and `e ≥ len(d)`, and otherwise returns
`count(e)/total`. -/
theorem C2_probability_contract (d : Dist) (e : Nat) :
    (d.valid = false → d.probability e = .error .invalidDistribution) ∧
    (d.valid = true → d.len ≤ e → d.probability e = .error .indexOutOfRange) ∧
    (d.valid = true → e < d.len →
      d.probability e =
        .ok ((inform_dist_get d e : ℚ) / (inform_dist_counts d : ℚ))) := by
  refine ⟨fun hv => ?_, fun hv he => ?_, fun hv he => ?_⟩
  · simp [Dist.probability, hv]
  · simp [Dist.probability, hv, he]
  · simp [Dist.probability, hv, inform_dist_prob, Nat.not_le.mpr he]

/-- Witness for C2: each branch of the contract at a concrete distribution. -/
theorem C2_probability_contract_witness :
    Dist.probability ⟨[0, 0]⟩ 0 = .error .invalidDistribution ∧
    Dist.probability ⟨[1, 1]⟩ 5 = .error .indexOutOfRange ∧
    Dist.probability ⟨[1, 1]⟩ 0 =
      .ok ((inform_dist_get ⟨[1, 1]⟩ 0 : ℚ) / (inform_dist_counts ⟨[1, 1]⟩ : ℚ)) :=
  ⟨(C2_probability_contract ⟨[0, 0]⟩ 0).1 (by decide),
   (C2_probability_contract ⟨[1, 1]⟩ 5).2.1 (by decide) (by decide),
   (C2_probability_contract ⟨[1, 1]⟩ 0).2.2 (by decide) (by decide)⟩

/-- C7: `Dist(n)` fails with ConstructionError exactly when `n ≤ 0`; for
`n > 0` it yields an invalid distribution with `len() == n`, `counts() == 0`
and `valid() == False`. -/
theorem C7_construct_contract (n : Int) :
    ((∃ e, Dist.cinit (.int n) = .error e) ↔ n ≤ 0) ∧
    (Dist.cinit (.int n) = .error .constructionError ↔ n ≤ 0) ∧
    (0 < n → ∃ d, Dist.cinit (.int n) = .ok d ∧
      (d.len : Int) = n ∧ d.counts = 0 ∧ d.valid = false) := by
  by_cases h : n ≤ 0
  · refine ⟨⟨fun _ => h, fun _ => ⟨.constructionError, by simp [Dist.cinit, h]⟩⟩,
      ⟨fun _ => h, fun _ => by simp [Dist.cinit, h]⟩, fun hn => absurd hn (by omega)⟩
  · refine ⟨⟨?_, fun hc => absurd hc h⟩, ⟨?_, fun hc => absurd hc h⟩, fun _ => ?_⟩
    · rintro ⟨e, he⟩
      simp [Dist.cinit, h] at he
    · intro he
      simp [Dist.cinit, h] at he
    · refine ⟨inform_dist_alloc n.toNat, by simp [Dist.cinit, h], ?_, ?_, ?_⟩
      · simp [Dist.len, inform_dist_size, inform_dist_alloc]
        omega
      · simp [Dist.counts, inform_dist_counts, inform_dist_alloc]
      · simp [Dist.valid, inform_dist_is_valid, inform_dist_alloc]

/-- C3: for every in-bounds event, `tick(e)` increases the total `counts()` by
exactly 1 and `get(e)` by exactly 1, returns the new per-event count, and the
value of `get(e)` before the call equals the returned count minus 1. -/
theorem C3_tick_contract (d : Dist) (e : Nat) (h : e < d.len) :
    ∃ d2 r, d.tick e = .ok (d2, r) ∧
      d2.len = d.len ∧
      d2.counts = d.counts + 1 ∧
      inform_dist_get d2 e = inform_dist_get d e + 1 ∧
      r = inform_dist_get d e + 1 ∧
      d.getitem e = .ok (r - 1) ∧
      d2.getitem e = .ok r := by
  have hl : e < d.hist.length := h
  have hle : ¬ d.len ≤ e := Nat.not_le.mpr h
  refine ⟨(inform_dist_tick d e).1, (inform_dist_tick d e).2, ?_, ?_, ?_, ?_, rfl, ?_, ?_⟩
  · simp [Dist.tick, hle]
  · simp [inform_dist_tick, Dist.len, inform_dist_size]
  · simp only [inform_dist_tick, Dist.counts, inform_dist_counts]
    exact sum_set_getD_succ d.hist e hl
  · simp only [inform_dist_tick, inform_dist_get]
    exact getD_set_self d.hist e _ hl
  · simp [Dist.getitem, hle, inform_dist_tick, inform_dist_get]
  · have hle2 : ¬ (Dist.mk (d.hist.set e (d.hist.getD e 0 + 1))).len ≤ e := by
      simp only [Dist.len, inform_dist_size, List.length_set]
      exact Nat.not_le.mpr hl
    simp only [Dist.getitem, inform_dist_tick, inform_dist_get]
    rw [getD_set_self d.hist e _ hl, if_neg hle2]

/-- Witness for C3: ticking event 1 of a distribution with counts `[2,3]`. -/
theorem C3_tick_contract_witness :
    ∃ d2 r, Dist.tick ⟨[2, 3]⟩ 1 = .ok (d2, r) ∧
      d2.len = Dist.len ⟨[2, 3]⟩ ∧
      d2.counts = Dist.counts ⟨[2, 3]⟩ + 1 ∧
      inform_dist_get d2 1 = inform_dist_get ⟨[2, 3]⟩ 1 + 1 ∧
      r = inform_dist_get ⟨[2, 3]⟩ 1 + 1 ∧
      Dist.getitem ⟨[2, 3]⟩ 1 = .ok (r - 1) ∧
      Dist.getitem d2 1 = .ok r :=
  C3_tick_contract ⟨[2, 3]⟩ 1 (by decide)

/-- C6: `resize(n2)` fails with ConstructionError when `n2 ≤ 0`; otherwise it
changes the support size to `n2`, preserving counts at every index below
`min(n, n2)` and zero-filling newly added indices. -/
theorem C6_resize_contract (d : Dist) (n2 : Int) :
    (n2 ≤ 0 → d.resize n2 = .error .constructionError) ∧
    (0 < n2 → ∃ d2, d.resize n2 = .ok d2 ∧
      (d2.len : Int) = n2 ∧
      (∀ i, i < min d.len d2.len → inform_dist_get d2 i = inform_dist_get d i) ∧
      (∀ i, d.len ≤ i → i < d2.len → inform_dist_get d2 i = 0)) := by
  constructor
  · intro h
    simp [Dist.resize, h]
  · intro h
    have hn : ¬ n2 ≤ 0 := by omega
    have hlen : (inform_dist_realloc d n2.toNat).len = n2.toNat := by
      simp only [inform_dist_realloc, Dist.len, inform_dist_size,
        List.length_append, List.length_take, List.length_replicate]
      omega
    refine ⟨inform_dist_realloc d n2.toNat, by simp [Dist.resize, hn], ?_, ?_, ?_⟩
    · rw [hlen]
      omega
    · intro i hi
      rw [hlen] at hi
      have h1 : i < (d.hist.take n2.toNat).length := by
        simp only [List.length_take]
        have : i < min d.len n2.toNat := hi
        simp only [Dist.len, inform_dist_size] at this
        omega
      simp only [inform_dist_realloc, inform_dist_get]
      rw [List.getD_append _ _ _ _ h1]
      exact getD_take d.hist n2.toNat i (by simp only [List.length_take] at h1; omega)
    · intro i h1 h2
      rw [hlen] at h2
      have hL : i ≥ d.hist.length := h1
      have h3 : (d.hist.take n2.toNat).length ≤ i := by
        simp only [List.length_take]
        omega
      simp only [inform_dist_realloc, inform_dist_get]
      rw [List.getD_append_right _ _ _ _ h3]
      exact getD_replicate_zero _ _

/-- Witness for C6: resizing a three-event distribution up to five events and
the failing call at `n2 = 0`. -/
theorem C6_resize_contract_witness :
    Dist.resize ⟨[1, 2, 3]⟩ 0 = .error .constructionError ∧
    ∃ d2, Dist.resize ⟨[1, 2, 3]⟩ 5 = .ok d2 ∧
      (d2.len : Int) = 5 ∧
      (∀ i, i < min (Dist.len ⟨[1, 2, 3]⟩) d2.len →
        inform_dist_get d2 i = inform_dist_get ⟨[1, 2, 3]⟩ i) ∧
      (∀ i, Dist.len ⟨[1, 2, 3]⟩ ≤ i → i < d2.len → inform_dist_get d2 i = 0) :=
  ⟨(C6_resize_contract ⟨[1, 2, 3]⟩ 0).1 (by decide),
   (C6_resize_contract ⟨[1, 2, 3]⟩ 5).2 (by decide)⟩

/-- Witness for C7: the documented `Dist(5)` scenario. -/
theorem C7_construct_contract_witness :
    ∃ d, Dist.cinit (.int 5) = .ok d ∧
      (d.len : Int) = 5 ∧ d.counts = 0 ∧ d.valid = false :=
  (C7_construct_contract 5).2.2 (by decide)

/-- C4 is refuted as stated: with `k = 0` and an empty series (`m = 0`) the
wrapper raises SeriesTooShort, not InvalidHistoryLength, because the length
check runs first in the source. -/
theorem C4_counterexample :
    activeinfo ⟨[0], []⟩ 0 0 (fun _ => Double.nan) = .error .seriesTooShort ∧
    Err.seriesTooShort ≠ Err.invalidHistoryLength :=
  ⟨rfl, by decide⟩

/-- C4 (amended): the SeriesTooShort length check runs first, so whenever
`m == 0 ∨ m < k+1` the failure is SeriesTooShort even when `k == 0`; the
InvalidHistoryLength failure for `k == 0` occurs exactly when the length check
passes; both checks precede the call into the C core, so no partial result is
ever produced. -/
theorem C4_amended_preconditions (k b : Nat) (arr ys xs : List Nat) (a ay ax : Arr2) :
    ((arr.length < k + 1 ∨ arr.length = 0) →
      activeinfo1dCall arr k b = .error .seriesTooShort ∧
      entropyrate1dCall arr k b = .error .seriesTooShort) ∧
    ((ys.length < k + 1 ∨ ys.length = 0) →
      transferentropy1dCall ys xs k b = .error .seriesTooShort) ∧
    ((a.cols < k + 1 ∨ a.rows = 0) →
      activeinfo2dCall a k b = .error .seriesTooShort ∧
      entropyrate2dCall a k b = .error .seriesTooShort) ∧
    ((ay.cols < k + 1 ∨ ay.rows = 0) →
      transferentropy2dCall ay ax k b = .error .seriesTooShort) ∧
    (k = 0 → k + 1 ≤ arr.length →
      activeinfo1dCall arr k b = .error .invalidHistoryLength ∧
      entropyrate1dCall arr k b = .error .invalidHistoryLength) ∧
    (k = 0 → k + 1 ≤ ys.length →
      transferentropy1dCall ys xs k b = .error .invalidHistoryLength) ∧
    (k = 0 → k + 1 ≤ a.cols → a.rows ≠ 0 →
      activeinfo2dCall a k b = .error .invalidHistoryLength ∧
      entropyrate2dCall a k b = .error .invalidHistoryLength) ∧
    (k = 0 → k + 1 ≤ ay.cols → ay.rows ≠ 0 →
      transferentropy2dCall ay ax k b = .error .invalidHistoryLength) := by
  refine ⟨fun h => ?_, fun h => ?_, fun h => ?_, fun h => ?_,
    fun hk hm => ?_, fun hk hm => ?_, fun hk hm hr => ?_, fun hk hm hr => ?_⟩
  · constructor <;> simp only [activeinfo1dCall, entropyrate1dCall] <;> rw [if_pos h]
  · simp only [transferentropy1dCall]
    rw [if_pos h]
  · constructor <;> simp only [activeinfo2dCall, entropyrate2dCall] <;> rw [if_pos h]
  · simp only [transferentropy2dCall]
    rw [if_pos h]
  · have hc : ¬ (arr.length < k + 1 ∨ arr.length = 0) := by omega
    constructor <;> simp only [activeinfo1dCall, entropyrate1dCall] <;>
      rw [if_neg hc, if_pos hk]
  · have hc : ¬ (ys.length < k + 1 ∨ ys.length = 0) := by omega
    simp only [transferentropy1dCall]
    rw [if_neg hc, if_pos hk]
  · have hc : ¬ (a.cols < k + 1 ∨ a.rows = 0) := by omega
    constructor <;> simp only [activeinfo2dCall, entropyrate2dCall] <;>
      rw [if_neg hc, if_pos hk]
  · have hc : ¬ (ay.cols < k + 1 ∨ ay.rows = 0) := by omega
    simp only [transferentropy2dCall]
    rw [if_neg hc, if_pos hk]

/-- Witness for C4 (amended): concrete inputs hitting both error branches. -/
theorem C4_amended_preconditions_witness :
    activeinfo1dCall [] 0 0 = .error .seriesTooShort ∧
    activeinfo1dCall [1, 0] 0 0 = .error .invalidHistoryLength ∧
    transferentropy1dCall [1, 0] [0, 1] 0 0 = .error .invalidHistoryLength :=
  ⟨((C4_amended_preconditions 0 0 [] [] [] ⟨1, 1, [0]⟩ ⟨1, 1, [0]⟩ ⟨1, 1, [0]⟩).1
      (by decide)).1,
   ((C4_amended_preconditions 0 0 [1, 0] [1, 0] [0, 1] ⟨1, 1, [0]⟩ ⟨1, 1, [0]⟩
      ⟨1, 1, [0]⟩).2.2.2.2.1 rfl (by decide)).1,
   (C4_amended_preconditions 0 0 [1, 0] [1, 0] [0, 1] ⟨1, 1, [0]⟩ ⟨1, 1, [0]⟩
      ⟨1, 1, [0]⟩).2.2.2.2.2.1 rfl (by decide)⟩

/-- C5 is refuted as stated: the guard on the scalar path is `math.isnan`,
which is false for an infinity, so an infinite — hence non-finite — computed
result is returned to the caller instead of being raised as a DomainError. -/
theorem C5_counterexample :
    activeinfo1d [0, 1, 0, 1] 1 2 (fun _ => Double.inf) = .ok Double.inf ∧
    Double.isFinite Double.inf = false :=
  ⟨rfl, rfl⟩

/-- C5 (amended): any NaN scalar result is surfaced as a DomainError rather
than returned, and a successfully returned scalar is never NaN; the guard
tests only for NaN, so other non-finite values (infinities) pass through. -/
theorem C5_amended_nan_guard (arr ys xs : List Nat) (k b : Nat)
    (f : AICall → Double) (g : TECall → Double) :
    (∀ c, activeinfo1dCall arr k b = .ok c → isnan (f c) = true →
      activeinfo1d arr k b f = .error .domainError) ∧
    (∀ r, activeinfo1d arr k b f = .ok r → isnan r = false) ∧
    (∀ c, entropyrate1dCall arr k b = .ok c → isnan (f c) = true →
      entropyrate1d arr k b f = .error .domainError) ∧
    (∀ r, entropyrate1d arr k b f = .ok r → isnan r = false) ∧
    (∀ c, transferentropy1dCall ys xs k b = .ok c → isnan (g c) = true →
      transferentropy1d ys xs k b g = .error .domainError) ∧
    (∀ r, transferentropy1d ys xs k b g = .ok r → isnan r = false) := by
  refine ⟨fun c hc hn => ?_, fun r hr => ?_, fun c hc hn => ?_, fun r hr => ?_,
    fun c hc hn => ?_, fun r hr => ?_⟩
  · simp [activeinfo1d, hc, hn]
  · simp only [activeinfo1d] at hr
    cases hcall : activeinfo1dCall arr k b with
    | error e => rw [hcall] at hr; exact Except.noConfusion hr
    | ok c =>
      rw [hcall] at hr
      by_cases hn : isnan (f c) = true
      · simp [hn] at hr
      · simp only [Bool.not_eq_true] at hn
        simp only [hn, Bool.false_eq_true, if_false, Except.ok.injEq] at hr
        rw [← hr]
        exact hn
  · simp [entropyrate1d, hc, hn]
  · simp only [entropyrate1d] at hr
    cases hcall : entropyrate1dCall arr k b with
    | error e => rw [hcall] at hr; exact Except.noConfusion hr
    | ok c =>
      rw [hcall] at hr
      by_cases hn : isnan (f c) = true
      · simp [hn] at hr
      · simp only [Bool.not_eq_true] at hn
        simp only [hn, Bool.false_eq_true, if_false, Except.ok.injEq] at hr
        rw [← hr]
        exact hn
  · simp [transferentropy1d, hc, hn]
  · simp only [transferentropy1d] at hr
    cases hcall : transferentropy1dCall ys xs k b with
    | error e => rw [hcall] at hr; exact Except.noConfusion hr
    | ok c =>
      rw [hcall] at hr
      by_cases hn : isnan (g c) = true
      · simp [hn] at hr
      · simp only [Bool.not_eq_true] at hn
        simp only [hn, Bool.false_eq_true, if_false, Except.ok.injEq] at hr
        rw [← hr]
        exact hn

/-- Witness for C5 (amended): a NaN result from the modelled C call raises the
error. -/
theorem C5_amended_nan_guard_witness :
    activeinfo1d [0, 1] 1 2 (fun _ => Double.nan) = .error .domainError :=
  (C5_amended_nan_guard [0, 1] [] [] 1 2 (fun _ => Double.nan)
    (fun _ => Double.nan)).1 ⟨[0, 1], 1, 2, 2, 1⟩ rfl rfl

/-- C8: whenever the supplied base is below 2 (including the default 0), the
base actually passed to the C call is the maximum observed value plus one,
clamped to a minimum of 2, computed over the entire input; for transfer
entropy the maximum ranges over both the source and the target series. -/
theorem C8_base_inference (arr ys xs : List Nat) (a ay ax : Arr2) (k b : Nat)
    (hb : b < 2) :
    (∀ c, activeinfo1dCall arr k b = .ok c → c.b = max 2 (pymax arr + 1)) ∧
    (∀ c, entropyrate1dCall arr k b = .ok c → c.b = max 2 (pymax arr + 1)) ∧
    (∀ c, activeinfo2dCall a k b = .ok c → c.b = max 2 (pymax a.data + 1)) ∧
    (∀ c, entropyrate2dCall a k b = .ok c → c.b = max 2 (pymax a.data + 1)) ∧
    (∀ c, transferentropy1dCall ys xs k b = .ok c →
      c.b = max 2 (max (pymax xs + 1) (pymax ys + 1))) ∧
    (∀ c, transferentropy2dCall ay ax k b = .ok c →
      c.b = max 2 (max (pymax ax.data + 1) (pymax ay.data + 1))) := by
  refine ⟨fun c hc => ?_, fun c hc => ?_, fun c hc => ?_, fun c hc => ?_,
    fun c hc => ?_, fun c hc => ?_⟩
  · simp only [activeinfo1dCall, if_pos hb] at hc
    split at hc
    · exact Except.noConfusion hc
    · split at hc
      · exact Except.noConfusion hc
      · injection hc with h
        subst h
        rfl
  · simp only [entropyrate1dCall, if_pos hb] at hc
    split at hc
    · exact Except.noConfusion hc
    · split at hc
      · exact Except.noConfusion hc
      · injection hc with h
        subst h
        rfl
  · simp only [activeinfo2dCall, if_pos hb] at hc
    split at hc
    · exact Except.noConfusion hc
    · split at hc
      · exact Except.noConfusion hc
      · injection hc with h
        subst h
        rfl
  · simp only [entropyrate2dCall, if_pos hb] at hc
    split at hc
    · exact Except.noConfusion hc
    · split at hc
      · exact Except.noConfusion hc
      · injection hc with h
        subst h
        rfl
  · simp only [transferentropy1dCall, if_pos hb] at hc
    split at hc
    · exact Except.noConfusion hc
    · split at hc
      · exact Except.noConfusion hc
      · injection hc with h
        subst h
        exact max_assoc 2 (pymax xs + 1) (pymax ys + 1)
  · simp only [transferentropy2dCall, if_pos hb] at hc
    split at hc
    · exact Except.noConfusion hc
    · split at hc
      · exact Except.noConfusion hc
      · injection hc with h
        subst h
        exact max_assoc 2 (pymax ax.data + 1) (pymax ay.data + 1)

/-- Witness for C8: base 0 on the series `[0,1,2]` infers base 3. -/
theorem C8_base_inference_witness :
    AICall.b ⟨[0, 1, 2], 1, 3, 3, 1⟩ = max 2 (pymax [0, 1, 2] + 1) :=
  (C8_base_inference [0, 1, 2] [] [] ⟨1, 1, [0]⟩ ⟨1, 1, [0]⟩ ⟨1, 1, [0]⟩ 1 0
    (by decide)).1 ⟨[0, 1, 2], 1, 3, 3, 1⟩ rfl

/-- C9: when the two series' shapes differ, `transferentropy` fails with
ShapeMismatch; the statement holds for every `k` (including `k = 0`) and every
base and C result, showing the shape check precedes the other precondition
checks and any accumulation. -/
theorem C9_shape_mismatch_first (ys xs : NDArr) (k b : Nat)
    (g : TECall → Double) (h : ys.shape ≠ xs.shape) :
    transferentropy ys xs k b g = .error .shapeMismatch := by
  simp [transferentropy, h]

/-- Witness for C9: a length-2 and a length-3 series, with `k = 0`. -/
theorem C9_shape_mismatch_first_witness :
    transferentropy ⟨[2], [0, 0]⟩ ⟨[3], [0, 0, 0]⟩ 0 0 (fun _ => Double.nan) =
      .error .shapeMismatch :=
  C9_shape_mismatch_first ⟨[2], [0, 0]⟩ ⟨[3], [0, 0, 0]⟩ 0 0
    (fun _ => Double.nan) (by decide)

/-- C10: arrays of more than 2 dimensions are rejected by all three measures
(`transferentropy` rejects them with either the shape-mismatch or the
dimension error, depending on the other argument), and `activeinfo` and
`entropyrate` also reject 0-dimensional input. -/
theorem C10_ndim_limits (ys xs : NDArr) (k b : Nat) (f : AICall → Double)
    (g : TECall → Double) :
    (2 < ys.ndim →
      activeinfo ys k b f = .error .dimUnsupported ∧
      entropyrate ys k b f = .error .dimUnsupported ∧
      ∃ e, transferentropy ys xs k b g = .error e) ∧
    (ys.ndim = 0 →
      activeinfo ys k b f = .error .illDefinedEmpty ∧
      entropyrate ys k b f = .error .illDefinedEmpty) := by
  obtain ⟨shape, data⟩ := ys
  constructor
  · intro h
    simp only [NDArr.ndim] at h
    rcases shape with _ | ⟨s1, _ | ⟨s2, _ | ⟨s3, rest⟩⟩⟩
    · simp at h
    · simp at h
    · simp at h
    · refine ⟨rfl, rfl, ?_⟩
      by_cases hsh : s1 :: s2 :: s3 :: rest = xs.shape
      · refine ⟨.dimUnsupported, ?_⟩
        simp only [transferentropy]
        rw [if_neg (not_not.mpr hsh)]
      · exact ⟨.shapeMismatch, by simp [transferentropy, hsh]⟩
  · intro h
    simp only [NDArr.ndim] at h
    have hsh : shape = [] := List.length_eq_zero.mp h
    subst hsh
    exact ⟨rfl, rfl⟩

/-- Witness for C10: a 2×2×2 array is rejected by all three measures, and a
scalar is rejected by `activeinfo` and `entropyrate`. -/
theorem C10_ndim_limits_witness :
    (activeinfo ⟨[2, 2, 2], List.replicate 8 0⟩ 1 0 (fun _ => Double.nan) =
      .error .dimUnsupported ∧
     entropyrate ⟨[2, 2, 2], List.replicate 8 0⟩ 1 0 (fun _ => Double.nan) =
      .error .dimUnsupported ∧
     ∃ e, transferentropy ⟨[2, 2, 2], List.replicate 8 0⟩
      ⟨[2, 2, 2], List.replicate 8 0⟩ 1 0 (fun _ => Double.nan) = .error e) ∧
    (activeinfo ⟨[], [0]⟩ 1 0 (fun _ => Double.nan) = .error .illDefinedEmpty ∧
     entropyrate ⟨[], [0]⟩ 1 0 (fun _ => Double.nan) = .error .illDefinedEmpty) :=
  ⟨(C10_ndim_limits ⟨[2, 2, 2], List.replicate 8 0⟩ ⟨[2, 2, 2], List.replicate 8 0⟩
      1 0 (fun _ => Double.nan) (fun _ => Double.nan)).1 (by decide),
   (C10_ndim_limits ⟨[], [0]⟩ ⟨[], [0]⟩ 1 0 (fun _ => Double.nan)
      (fun _ => Double.nan)).2 (by decide)⟩

end PyInform
